import Mathlib

/-
  Verification development for the tracking-and-decision core of the
  AI-Integrated Smart Mobility and Urban Safety System.

  Embedded source files:
    backend/app/core/ai_pipeline.py   (SORT tracker, smoothers, heuristics)
    backend/app/core/traffic_rules.py (signal policy)
    worker/core/processor.py          (worker pipeline: same smoothers and
                                       wrong-way check, window-10 car smoother)

  Modelling conventions:
  * Python floats are modelled by `FP`: an exact rational together with the
    IEEE special values +inf, -inf and NaN.  Rounding is not modelled (all
    finite arithmetic is exact); the special-value propagation rules follow
    IEEE 754 (sign of zero is not modelled; a single NaN is used).
  * The Kalman covariance pipeline (filterpy's P, Q, R, S, K matrices) is
    modelled over exact rationals with Mathlib matrices; `inv4` is the
    closed cofactor form of the 4x4 matrix inverse used for S⁻¹.
  * numpy square root is modelled by `ratSqrt`, which is exact on rationals
    that are squares of rationals (the only values reached by the claims);
    on other inputs it returns the componentwise `Nat.sqrt` approximation.
  * The external `lap.lapjv` / `scipy.optimize.linear_sum_assignment`
    solver is a parameter of the association step; `lapSolver` is a
    brute-force optimal-assignment instantiation used for concrete runs.
-/

set_option maxRecDepth 100000

/-- IEEE-style scalar: exact rational, +inf, -inf, or NaN. -/
inductive FP where
  | fin (q : ℚ)
  | pinf
  | ninf
  | nan
deriving DecidableEq, Repr

namespace FP

/-- Negation with IEEE special values. -/
def neg : FP → FP
  | fin q => fin (-q)
  | pinf => ninf
  | ninf => pinf
  | nan => nan

/-- Addition with IEEE special values. -/
def add : FP → FP → FP
  | nan, _ => nan
  | _, nan => nan
  | fin a, fin b => fin (a + b)
  | fin _, pinf => pinf
  | fin _, ninf => ninf
  | pinf, fin _ => pinf
  | pinf, pinf => pinf
  | pinf, ninf => nan
  | ninf, fin _ => ninf
  | ninf, pinf => nan
  | ninf, ninf => ninf

/-- Subtraction, as addition of the negation (matches IEEE). -/
def sub (a b : FP) : FP := add a (neg b)

/-- Multiplication with IEEE special values (0 * inf = NaN). -/
def mul : FP → FP → FP
  | nan, _ => nan
  | _, nan => nan
  | fin a, fin b => fin (a * b)
  | fin a, pinf => if a = 0 then nan else if 0 < a then pinf else ninf
  | fin a, ninf => if a = 0 then nan else if 0 < a then ninf else pinf
  | pinf, fin b => if b = 0 then nan else if 0 < b then pinf else ninf
  | ninf, fin b => if b = 0 then nan else if 0 < b then ninf else pinf
  | pinf, pinf => pinf
  | pinf, ninf => ninf
  | ninf, pinf => ninf
  | ninf, ninf => pinf

/-- Division with IEEE special values (x/0 = ±inf or NaN, inf/inf = NaN). -/
def div : FP → FP → FP
  | nan, _ => nan
  | _, nan => nan
  | fin a, fin b =>
      if b = 0 then (if a = 0 then nan else if 0 < a then pinf else ninf)
      else fin (a / b)
  | fin _, pinf => fin 0
  | fin _, ninf => fin 0
  | pinf, fin b => if 0 ≤ b then pinf else ninf
  | ninf, fin b => if 0 ≤ b then ninf else pinf
  | pinf, pinf => nan
  | pinf, ninf => nan
  | ninf, pinf => nan
  | ninf, ninf => nan

/-- Integer Newton (Heron) iteration with explicit fuel, so that the kernel
can evaluate it; computes the floor square root for any input reachable
here. -/
def heron (n : ℕ) : ℕ → ℕ → ℕ
  | 0, g => g
  | fuel + 1, g =>
      let g2 := (g + n / g) / 2
      if g2 < g then heron n fuel g2 else g

/-- Floor square root of a natural number (kernel-evaluable). -/
def natSqrt (n : ℕ) : ℕ :=
  if n ≤ 1 then n else heron n 128 n

/-- Exact square root for rationals that are squares of rationals;
floor-square-root approximation elsewhere (never reached by the claims). -/
def ratSqrt (q : ℚ) : ℚ :=
  (natSqrt q.num.toNat : ℚ) / (natSqrt q.den : ℚ)

/-- Square root with IEEE special values. -/
def sqrt : FP → FP
  | nan => nan
  | pinf => pinf
  | ninf => nan
  | fin a => if a < 0 then nan else fin (ratSqrt a)

/-- Strict comparison; any comparison with NaN is false. -/
def lt : FP → FP → Bool
  | nan, _ => false
  | _, nan => false
  | fin a, fin b => decide (a < b)
  | fin _, pinf => true
  | fin _, ninf => false
  | pinf, _ => false
  | ninf, fin _ => true
  | ninf, pinf => true
  | ninf, ninf => false

/-- Non-strict comparison; any comparison with NaN is false. -/
def le : FP → FP → Bool
  | nan, _ => false
  | _, nan => false
  | fin a, fin b => decide (a ≤ b)
  | fin _, pinf => true
  | fin _, ninf => false
  | pinf, pinf => true
  | pinf, fin _ => false
  | pinf, ninf => false
  | ninf, _ => true

/-- `np.maximum`: NaN if either argument is NaN, otherwise the larger. -/
def fpMax (a b : FP) : FP :=
  if a = nan ∨ b = nan then nan else if lt a b then b else a

/-- `np.minimum`: NaN if either argument is NaN, otherwise the smaller. -/
def fpMin (a b : FP) : FP :=
  if a = nan ∨ b = nan then nan else if lt b a then b else a

/-- `np.isnan`. -/
def isNan : FP → Bool
  | nan => true
  | _ => false

/-- Finiteness test: true exactly on finite values (what
`np.ma.masked_invalid` keeps unmasked). -/
def isFinite : FP → Bool
  | fin _ => true
  | _ => false

instance : Add FP := ⟨add⟩
instance : Sub FP := ⟨sub⟩
instance : Mul FP := ⟨mul⟩
instance : Div FP := ⟨div⟩
instance : Neg FP := ⟨neg⟩
instance : OfNat FP 0 := ⟨fin 0⟩
instance : OfNat FP 1 := ⟨fin 1⟩

/-- Sum of a list of scalars (left-to-right, matching numpy dot products). -/
def fpSum (l : List FP) : FP := l.foldr add (fin 0)

end FP

open FP

/-- A bounding box `[x1, y1, x2, y2]` of IEEE-style scalars (the score
column of a detection row is not read by any of the embedded code paths,
so detections are identified with their boxes). -/
structure Box where
  x1 : FP
  y1 : FP
  x2 : FP
  y2 : FP
deriving DecidableEq, Repr

/-- Box whose four coordinates are all given finite rationals. -/
def Box.ofQ (a b c d : ℚ) : Box := ⟨fin a, fin b, fin c, fin d⟩

/-- `np.any(np.isnan(pos))` over the four box coordinates. -/
def Box.hasNan (b : Box) : Bool :=
  b.x1.isNan || b.y1.isNan || b.x2.isNan || b.y2.isNan

/-- All four coordinates finite (a row kept by
`np.ma.compress_rows(np.ma.masked_invalid(...))`). -/
def Box.finite (b : Box) : Bool :=
  b.x1.isFinite && b.y1.isFinite && b.x2.isFinite && b.y2.isFinite

/-- `iou_batch` for a single (detection, tracker-box) pair
(ai_pipeline.py lines 35-48). -/
def iou (bbTest bbGt : Box) : FP :=
  let xx1 := fpMax bbTest.x1 bbGt.x1
  let yy1 := fpMax bbTest.y1 bbGt.y1
  let xx2 := fpMin bbTest.x2 bbGt.x2
  let yy2 := fpMin bbTest.y2 bbGt.y2
  let w := fpMax (fin 0) (xx2 - xx1)
  let h := fpMax (fin 0) (yy2 - yy1)
  let wh := w * h
  wh / ((bbTest.x2 - bbTest.x1) * (bbTest.y2 - bbTest.y1)
    + (bbGt.x2 - bbGt.x1) * (bbGt.y2 - bbGt.y1) - wh)

/-- `convert_bbox_to_z` (ai_pipeline.py lines 50-57): box to
`[cx, cy, area, aspect]`. -/
def convert_bbox_to_z (b : Box) : Fin 4 → FP :=
  let w := b.x2 - b.x1
  let h := b.y2 - b.y1
  let x := b.x1 + w / fin 2
  let y := b.y1 + h / fin 2
  let s := w * h
  let r := w / h
  ![x, y, s, r]

/-- `convert_x_to_bbox` (ai_pipeline.py lines 59-65), score-less branch:
state mean to box. -/
def convert_x_to_bbox (x : Fin 7 → FP) : Box :=
  let w := FP.sqrt (x 2 * x 3)
  let h := x 2 / w
  ⟨x 0 - w / fin 2, x 1 - h / fin 2, x 0 + w / fin 2, x 1 + h / fin 2⟩

/-
  Kalman filter (KalmanBoxTracker.__init__, ai_pipeline.py lines 67-85,
  together with filterpy's predict/update equations).  The mean vector is
  FP-valued; the covariance machinery (P, Q, R, S, K) is modelled over
  exact rationals, with the gain entries injected into FP arithmetic
  where they touch the mean.
-/

/-- State-transition matrix `F` (constant-velocity model, line 71). -/
def Fmat : Matrix (Fin 7) (Fin 7) ℚ :=
  !![1,0,0,0,1,0,0;
     0,1,0,0,0,1,0;
     0,0,1,0,0,0,1;
     0,0,0,1,0,0,0;
     0,0,0,0,1,0,0;
     0,0,0,0,0,1,0;
     0,0,0,0,0,0,1]

/-- Observation matrix `H` (line 72). -/
def Hmat : Matrix (Fin 4) (Fin 7) ℚ :=
  !![1,0,0,0,0,0,0;
     0,1,0,0,0,0,0;
     0,0,1,0,0,0,0;
     0,0,0,1,0,0,0]

/-- Measurement noise `R` after `R[2:,2:] *= 10` (line 73). -/
def Rmat : Matrix (Fin 4) (Fin 4) ℚ := Matrix.diagonal ![1, 1, 10, 10]

/-- Initial covariance after `P[4:,4:] *= 1000; P *= 10` (lines 74-75). -/
def Pmat0 : Matrix (Fin 7) (Fin 7) ℚ :=
  Matrix.diagonal ![10, 10, 10, 10, 10000, 10000, 10000]

/-- Process noise after `Q[-1,-1] *= 0.01; Q[4:,4:] *= 0.01` (lines 76-77). -/
def Qmat : Matrix (Fin 7) (Fin 7) ℚ :=
  Matrix.diagonal ![1, 1, 1, 1, 1/100, 1/100, 1/10000]

/-- Rational dot product, written with an explicit index list so the kernel
can evaluate it. -/
def qdot {n : ℕ} (f g : Fin n → ℚ) : ℚ :=
  ((List.finRange n).map fun j => f j * g j).sum

/-- Rational matrix product (numpy `dot`). -/
def qmul {l m n : ℕ} (A : Matrix (Fin l) (Fin m) ℚ)
    (B : Matrix (Fin m) (Fin n) ℚ) : Matrix (Fin l) (Fin n) ℚ :=
  Matrix.of fun i k => qdot (fun j => A i j) fun j => B j k

/-- Rational matrix sum. -/
def qadd {l m : ℕ} (A B : Matrix (Fin l) (Fin m) ℚ) : Matrix (Fin l) (Fin m) ℚ :=
  Matrix.of fun i j => A i j + B i j

/-- Rational matrix difference. -/
def qsub {l m : ℕ} (A B : Matrix (Fin l) (Fin m) ℚ) : Matrix (Fin l) (Fin m) ℚ :=
  Matrix.of fun i j => A i j - B i j

/-- Transpose. -/
def qtrans {l m : ℕ} (A : Matrix (Fin l) (Fin m) ℚ) : Matrix (Fin m) (Fin l) ℚ :=
  Matrix.of fun i j => A j i

/-- Identity matrix (numpy `eye`). -/
def qeye (n : ℕ) : Matrix (Fin n) (Fin n) ℚ :=
  Matrix.of fun i j => if i = j then 1 else 0

/-- 3x3 determinant, written out so the kernel can evaluate it. -/
def det3 (m : Fin 3 → Fin 3 → ℚ) : ℚ :=
  m 0 0 * (m 1 1 * m 2 2 - m 1 2 * m 2 1)
    - m 0 1 * (m 1 0 * m 2 2 - m 1 2 * m 2 0)
    + m 0 2 * (m 1 0 * m 2 1 - m 1 1 * m 2 0)

/-- Minor of a 4x4 matrix obtained by deleting row `r` and column `c`. -/
def minor4 (S : Matrix (Fin 4) (Fin 4) ℚ) (r c : Fin 4) : ℚ :=
  det3 fun i j => S (r.succAbove i) (c.succAbove j)

/-- Signed cofactor of a 4x4 matrix. -/
def cof4 (S : Matrix (Fin 4) (Fin 4) ℚ) (r c : Fin 4) : ℚ :=
  (-1 : ℚ) ^ ((r : ℕ) + (c : ℕ)) * minor4 S r c

/-- 4x4 determinant by cofactor expansion along the first row. -/
def det4 (S : Matrix (Fin 4) (Fin 4) ℚ) : ℚ :=
  S 0 0 * cof4 S 0 0 + S 0 1 * cof4 S 0 1 + S 0 2 * cof4 S 0 2 + S 0 3 * cof4 S 0 3

/-- Closed cofactor form of the 4x4 inverse (models `numpy.linalg.inv`
on the innovation covariance). -/
def inv4 (S : Matrix (Fin 4) (Fin 4) ℚ) : Matrix (Fin 4) (Fin 4) ℚ :=
  Matrix.of fun i j => (det4 S)⁻¹ * cof4 S j i

/-- Product of a rational matrix with an FP vector (numpy `dot`; the rule
`0 * inf = NaN` is preserved because the entries enter FP multiplication). -/
def qmatvec {m n : ℕ} (M : Matrix (Fin m) (Fin n) ℚ) (v : Fin n → FP) :
    Fin m → FP :=
  fun i => fpSum ((List.finRange n).map fun j => fin (M i j) * v j)

/-- Kalman gain `K = P Hᵀ S⁻¹` with `S = H P Hᵀ + R`. -/
def kgain (P : Matrix (Fin 7) (Fin 7) ℚ) : Matrix (Fin 7) (Fin 4) ℚ :=
  qmul (qmul P (qtrans Hmat)) (inv4 (qadd (qmul (qmul Hmat P) (qtrans Hmat)) Rmat))

/-- filterpy `KalmanFilter.update`: innovation, gain, corrected mean, and
the Joseph-form covariance update. -/
def kfUpdate (P : Matrix (Fin 7) (Fin 7) ℚ) (x : Fin 7 → FP) (z : Fin 4 → FP) :
    (Fin 7 → FP) × Matrix (Fin 7) (Fin 7) ℚ :=
  let y : Fin 4 → FP := fun i => z i - qmatvec Hmat x i
  let K := kgain P
  let x' : Fin 7 → FP :=
    fun i => x i + fpSum ((List.finRange 4).map fun j => fin (K i j) * y j)
  let IKH := qsub (qeye 7) (qmul K Hmat)
  (x', qadd (qmul (qmul IKH P) (qtrans IKH)) (qmul (qmul K Rmat) (qtrans K)))

instance : DecidableEq (Matrix (Fin 7) (Fin 7) ℚ) :=
  inferInstanceAs (DecidableEq (Fin 7 → Fin 7 → ℚ))

/-- One SORT track: Kalman state plus bookkeeping
(KalmanBoxTracker, ai_pipeline.py lines 67-106). -/
structure KalmanBoxTracker where
  x : Fin 7 → FP
  P : Matrix (Fin 7) (Fin 7) ℚ
  time_since_update : ℕ
  id : ℕ
  history : List Box
  hits : ℕ
  hit_streak : ℕ
  age : ℕ
deriving DecidableEq

/-- `KalmanBoxTracker.__init__` (lines 69-85): position components from the
detection, velocities zero; `id` is drawn from the class-level counter
`KalmanBoxTracker.count`, which the caller threads (and increments). -/
def KalmanBoxTracker.init (bbox : Box) (count : ℕ) : KalmanBoxTracker :=
  let z := convert_bbox_to_z bbox
  { x := ![z 0, z 1, z 2, z 3, fin 0, fin 0, fin 0]
    P := Pmat0
    time_since_update := 0
    id := count
    history := []
    hits := 0
    hit_streak := 0
    age := 0 }

/-- `KalmanBoxTracker.update` (lines 87-92). -/
def KalmanBoxTracker.update (t : KalmanBoxTracker) (bbox : Box) :
    KalmanBoxTracker :=
  { t with
    time_since_update := 0
    history := []
    hits := t.hits + 1
    hit_streak := t.hit_streak + 1
    x := (kfUpdate t.P t.x (convert_bbox_to_z bbox)).1
    P := (kfUpdate t.P t.x (convert_bbox_to_z bbox)).2 }

/-- `KalmanBoxTracker.predict` (lines 94-103): area-velocity guard, filterpy
predict, bookkeeping, and the predicted box. -/
def KalmanBoxTracker.predict (t : KalmanBoxTracker) : KalmanBoxTracker × Box :=
  let xg : Fin 7 → FP :=
    if FP.le (t.x 6 + t.x 2) (fin 0)
    then fun i => if i = 6 then t.x 6 * fin 0 else t.x i
    else t.x
  let x' := qmatvec Fmat xg
  let P' := qadd (qmul (qmul Fmat t.P) (qtrans Fmat)) Qmat
  let box := convert_x_to_bbox x'
  ({ t with
      x := x'
      P := P'
      age := t.age + 1
      hit_streak := if 0 < t.time_since_update then 0 else t.hit_streak
      time_since_update := t.time_since_update + 1
      history := t.history ++ [box] }, box)

/-- `KalmanBoxTracker.get_state` (lines 105-106). -/
def KalmanBoxTracker.get_state (t : KalmanBoxTracker) : Box :=
  convert_x_to_bbox t.x

/-
  Association (`associate_detections_to_trackers`, ai_pipeline.py lines
  108-139) and the SORT tracker (`Sort`, lines 141-178).
-/

/-- The all-zero box, used as the (never observed) out-of-range default
for index lookups that the Python code performs by numpy indexing. -/
def Box.zero : Box := ⟨fin 0, fin 0, fin 0, fin 0⟩

/-- Entry `(d, t)` of the IOU matrix `iou_batch(dets, trks)`. -/
def iouAt (dets trks : List Box) (d t : ℕ) : FP :=
  iou (dets.getD d Box.zero) (trks.getD t Box.zero)

/-- The negated IOU matrix handed to the assignment solver
(`linear_assignment(-iou_matrix)`). -/
def negIouMat (dets trks : List Box) : List (List FP) :=
  dets.map fun d => trks.map fun t => FP.neg (iou d t)

/-- Row sums of the boolean matrix `a = (iou_matrix > iou_threshold)`. -/
def aRowSums (dets trks : List Box) (thr : FP) : List ℕ :=
  (List.range dets.length).map fun d =>
    (List.range trks.length).countP fun t => FP.lt thr (iouAt dets trks d t)

/-- Column sums of `a`. -/
def aColSums (dets trks : List Box) (thr : FP) : List ℕ :=
  (List.range trks.length).map fun t =>
    (List.range dets.length).countP fun d => FP.lt thr (iouAt dets trks d t)

/-- `l.max()` of a numpy integer vector (all lists used are nonempty). -/
def maxList (l : List ℕ) : ℕ := l.foldr max 0

/-- `np.stack(np.where(a), axis=1)`: above-threshold pairs in row-major
order. -/
def whereA (dets trks : List Box) (thr : FP) : List (ℕ × ℕ) :=
  (List.range dets.length).flatMap fun d =>
    ((List.range trks.length).filter fun t =>
      FP.lt thr (iouAt dets trks d t)).map fun t => (d, t)

/-- The external assignment solver, as a parameter: it receives the negated
IOU matrix and returns (detection index, tracker index) pairs. -/
def Solver : Type := List (List FP) → List (ℕ × ℕ)

/-- Result triple of `associate_detections_to_trackers`. -/
structure Assoc where
  matched : List (ℕ × ℕ)
  unmatched_dets : List ℕ
  unmatched_trks : List ℕ
deriving DecidableEq, Repr

/-- The candidate pair list `matched_indices` (ai_pipeline.py lines
111-119): empty when either side is empty; the thresholded one-to-one
shortcut when it applies; otherwise the external solver on the negated
IOU matrix. -/
def matchedIndices (solver : Solver) (dets trks : List Box) (thr : FP) :
    List (ℕ × ℕ) :=
  if 0 < min dets.length trks.length then
    if maxList (aRowSums dets trks thr) = 1 ∧
       maxList (aColSums dets trks thr) = 1 then
      whereA dets trks thr
    else solver (negIouMat dets trks)
  else []

/-- `associate_detections_to_trackers` (ai_pipeline.py lines 108-139):
empty-tracker early return; candidate pairs from `matchedIndices`; then
rejection of below-threshold candidate pairs, both members of a rejected
pair reported unmatched. -/
def associate_detections_to_trackers (solver : Solver) (dets trks : List Box)
    (iou_threshold : FP) : Assoc :=
  if trks.isEmpty then
    ⟨[], List.range dets.length, []⟩
  else
    let matched_indices := matchedIndices solver dets trks iou_threshold
    let unmatched_d0 :=
      (List.range dets.length).filter fun d =>
        !(matched_indices.any fun m => m.1 = d)
    let unmatched_t0 :=
      (List.range trks.length).filter fun t =>
        !(matched_indices.any fun m => m.2 = t)
    let rejected := matched_indices.filter fun m =>
      FP.lt (iouAt dets trks m.1 m.2) iou_threshold
    let kept := matched_indices.filter fun m =>
      !(FP.lt (iouAt dets trks m.1 m.2) iou_threshold)
    ⟨kept, unmatched_d0 ++ rejected.map Prod.fst,
      unmatched_t0 ++ rejected.map Prod.snd⟩

/-- All maximal injective pairings of the given row indices into the given
column indices. -/
def pairingsAux : List ℕ → List ℕ → List (List (ℕ × ℕ))
  | [], _ => [[]]
  | r :: rs, cols =>
      cols.flatMap fun c =>
        (pairingsAux rs (cols.erase c)).map fun m => (r, c) :: m

/-- Total cost of a pairing under a cost matrix. -/
def lapCost (M : List (List FP)) (m : List (ℕ × ℕ)) : FP :=
  fpSum (m.map fun p => (M.getD p.1 []).getD p.2 (fin 0))

/-- First pairing of minimal total cost. -/
def argminCost (M : List (List FP)) : List (List (ℕ × ℕ)) → List (ℕ × ℕ)
  | [] => []
  | c :: cs => cs.foldl (fun best m =>
      if FP.lt (lapCost M m) (lapCost M best) then m else best) c

/-- Modelled from the spec: the optimal-assignment solver (`lap.lapjv`, with
`scipy.optimize.linear_sum_assignment` as fallback) is imported by the code,
not defined in the repository; per the spec, "any correct minimum-cost
bipartite matching algorithm is acceptable".  This is a brute-force
minimum-total-cost assignment over all maximal injective pairings, first
minimum wins. -/
def lapSolver : Solver := fun M =>
  let nr := M.length
  let nc := (M.headD []).length
  if nr ≤ nc then
    argminCost M (pairingsAux (List.range nr) (List.range nc))
  else
    argminCost M ((pairingsAux (List.range nc) (List.range nr)).map
      fun m => m.map fun p => (p.2, p.1))

/-- One output row `[x1, y1, x2, y2, trk.id + 1]` of `Sort.update`, with the
reported identity kept as a natural number. -/
structure OutRow where
  box : Box
  rid : ℕ
deriving DecidableEq, Repr

/-- Tracker state of a `Sort` instance (`Sort.__init__`, lines 142-147).
The identity counter `KalmanBoxTracker.count` is *not* part of this state:
in the source it is a class attribute shared by every tracker instance in
the process, so `Sort.update` threads it explicitly. -/
structure SortState where
  max_age : ℕ
  min_hits : ℕ
  iou_threshold : FP
  trackers : List KalmanBoxTracker
  frame_count : ℕ
deriving DecidableEq

/-- `Sort(max_age=1, min_hits=3, iou_threshold=0.3)` defaults. -/
def SortState.init (max_age : ℕ := 1) (min_hits : ℕ := 3)
    (iou_threshold : FP := fin (3/10)) : SortState :=
  ⟨max_age, min_hits, iou_threshold, [], 0⟩

/-- Prediction phase (lines 151-158): predict every tracker, pairing the
advanced tracker with its predicted box. -/
def predictPhase (trackers : List KalmanBoxTracker) :
    List (KalmanBoxTracker × Box) :=
  trackers.map KalmanBoxTracker.predict

/-- Rows of `trks` surviving
`np.ma.compress_rows(np.ma.masked_invalid(trks))`: predicted boxes with all
coordinates finite (NaN and ±Inf rows are removed from the array). -/
def finiteRows (pairs : List (KalmanBoxTracker × Box)) : List Box :=
  (pairs.map Prod.snd).filter Box.finite

/-- Trackers remaining in `self.trackers` after the `to_del` pops
(lines 157-161): only trackers whose predicted box contains NaN are
popped; a box containing only ±Inf is *not* popped. -/
def popNan (pairs : List (KalmanBoxTracker × Box)) : List KalmanBoxTracker :=
  (pairs.filter fun p => !p.2.hasNan).map Prod.fst

/-- Matched-update phase (lines 163-164): `self.trackers[m[1]].update(dets[m[0]])`
for each matched pair, in order. -/
def applyMatches (trackers : List KalmanBoxTracker) (dets : List Box)
    (matched : List (ℕ × ℕ)) : List KalmanBoxTracker :=
  matched.foldl (fun acc m =>
    acc.set m.2 ((acc.getD m.2 (KalmanBoxTracker.init Box.zero 0)).update
      (dets.getD m.1 Box.zero))) trackers

/-- Spawn phase (lines 165-167): one new `KalmanBoxTracker` per unmatched
detection, drawing and incrementing the shared identity counter. -/
def spawnPhase (trackers : List KalmanBoxTracker) (count : ℕ) (dets : List Box)
    (unmatched_dets : List ℕ) : List KalmanBoxTracker × ℕ :=
  unmatched_dets.foldl (fun acc i =>
    (acc.1 ++ [KalmanBoxTracker.init (dets.getD i Box.zero) acc.2], acc.2 + 1))
    (trackers, count)

/-- Output condition of the reversed output loop (line 171). -/
def outCond (min_hits frame_count : ℕ) (t : KalmanBoxTracker) : Bool :=
  t.time_since_update < 1 && (min_hits ≤ t.hit_streak || frame_count ≤ min_hits)

/-- Output row construction (line 172): current state box and `trk.id + 1`. -/
def reportRow (t : KalmanBoxTracker) : OutRow := ⟨t.get_state, t.id + 1⟩

/-- The reversed output-and-retire loop (lines 168-175).  Iterating
`reversed(self.trackers)` processes the last element first, and `pop(i)` at
the current index never disturbs the indices still to be visited, so the
loop is this right-to-left recursion. -/
def outLoop (max_age min_hits frame_count : ℕ) :
    List KalmanBoxTracker → List OutRow × List KalmanBoxTracker
  | [] => ([], [])
  | t :: rest =>
      let r := outLoop max_age min_hits frame_count rest
      (r.1 ++ (if outCond min_hits frame_count t then [reportRow t] else []),
        (if t.time_since_update ≤ max_age then [t] else []) ++ r.2)

/-- The live tracker list at the start of the output loop: predicted
trackers minus NaN pops, with matched updates applied and unmatched
detections spawned. -/
def postSpawn (solver : Solver) (st : SortState) (count : ℕ) (dets : List Box) :
    List KalmanBoxTracker × ℕ :=
  let pairs := predictPhase st.trackers
  let assoc := associate_detections_to_trackers solver dets (finiteRows pairs)
    st.iou_threshold
  spawnPhase (applyMatches (popNan pairs) dets assoc.matched) count dets
    assoc.unmatched_dets

/-- `Sort.update` (ai_pipeline.py lines 149-178): returns the new tracker
state, the new shared identity counter, and the output rows. -/
def SortState.update (solver : Solver) (st : SortState) (count : ℕ)
    (dets : List Box) : SortState × ℕ × List OutRow :=
  let fc := st.frame_count + 1
  let sp := postSpawn solver st count dets
  let out := outLoop st.max_age st.min_hits fc sp.1
  ({ st with trackers := out.2, frame_count := fc }, sp.2, out.1)

/-
  Smoothing layer (`BoxSmoother`, `PlateSmoother`; identical in
  ai_pipeline.py lines 228-250 and worker/core/processor.py lines 52-78)
  and the wrong-way heuristic (`check_wrong_way`, identical in
  ai_pipeline.py lines 323-340 and processor.py lines 278-284).
  The boxes fed here are plain finite floats, modelled by rationals.
-/

/-- A raw `[x1, y1, x2, y2]` box as fed to the smoothing layer. -/
abbrev QBox : Type := Fin 4 → ℚ

/-- `BoxSmoother`: per-track bounded deque of recent boxes. `buffers` is a
`defaultdict`, so an id never updated maps to the empty buffer. -/
structure BoxSmoother where
  window : ℕ
  buffers : ℕ → List QBox

/-- `BoxSmoother.__init__` (default window 30 in the backend; the worker
constructs `BoxSmoother(window=10)` for car boxes). -/
def BoxSmoother.create (window : ℕ := 30) : BoxSmoother :=
  ⟨window, fun _ => []⟩

/-- `deque(maxlen=window).append`: append, evicting the oldest elements
beyond the capacity. -/
def dequeAppend (window : ℕ) (l : List QBox) (b : QBox) : List QBox :=
  let l2 := l ++ [b]
  if l2.length ≤ window then l2 else l2.drop (l2.length - window)

/-- `np.stack(...).mean(axis=0)`: element-wise arithmetic mean. -/
def qboxMean (l : List QBox) : QBox :=
  fun i => ((l.map fun b => b i).sum) / (l.length : ℚ)

/-- `BoxSmoother.update`: append the box to the track's buffer and return
the element-wise mean of the buffered boxes. -/
def BoxSmoother.update (s : BoxSmoother) (track_id : ℕ) (bbox : QBox) :
    BoxSmoother × QBox :=
  let buf := dequeAppend s.window (s.buffers track_id) bbox
  (⟨s.window, fun j => if j = track_id then buf else s.buffers j⟩, qboxMean buf)

/-- A sequence of `update` calls applied in order. -/
def runSmoother (s : BoxSmoother) (calls : List (ℕ × QBox)) : BoxSmoother :=
  calls.foldl (fun acc c => (acc.update c.1 c.2).1) s

/-- `check_wrong_way` (ai_pipeline.py 323-340 / processor.py 278-284):
needs at least 20 buffered samples, then flags when the current y1 is more
than 50 pixels above the oldest buffered y1. -/
def check_wrong_way (s : BoxSmoother) (track_id : ℕ) (current_pos : QBox) :
    Bool :=
  let history := s.buffers track_id
  if history.length < 20 then false
  else decide (current_pos 1 < (history.getD 0 fun _ => 0) 1 - 50)

/-- `PlateSmoother` (ai_pipeline.py 236-250 / processor.py 60-78): plate-box
deques plus the per-track best `{text, score}` record (`None` when nothing
has been recorded). -/
structure PlateSmoother where
  bbox_window : ℕ
  bbox_buffers : ℕ → List QBox
  best_text : ℕ → Option (String × ℚ)

/-- `PlateSmoother.__init__` (bbox window 5 in the backend, 10 in the
worker). -/
def PlateSmoother.create (bbox_window : ℕ := 5) : PlateSmoother :=
  ⟨bbox_window, fun _ => [], fun _ => none⟩

/-- `PlateSmoother.update_bbox`. -/
def PlateSmoother.update_bbox (t : PlateSmoother) (track_id : ℕ) (bbox : QBox) :
    PlateSmoother × QBox :=
  let buf := dequeAppend t.bbox_window (t.bbox_buffers track_id) bbox
  (⟨t.bbox_window, fun j => if j = track_id then buf else t.bbox_buffers j,
    t.best_text⟩, qboxMean buf)

/-- `PlateSmoother.update_text`: ignore empty/absent text; treat an absent
score as 0.0; replace when the new score is ≥ the stored score (with the
`{'text':'0','score':0.0}` default standing in when nothing is stored). -/
def PlateSmoother.update_text (t : PlateSmoother) (track_id : ℕ)
    (text : Option String) (score : Option ℚ) : PlateSmoother :=
  match text with
  | none => t
  | some s =>
      if s = "" then t
      else
        let sc := score.getD 0
        let prev := (t.best_text track_id).getD ("0", 0)
        if prev.2 ≤ sc then
          { t with best_text := fun j =>
              if j = track_id then some (s, sc) else t.best_text j }
        else t

/-- `PlateSmoother.get_best_text`. -/
def PlateSmoother.get_best_text (t : PlateSmoother) (track_id : ℕ) :
    String × ℚ :=
  (t.best_text track_id).getD ("0", 0)

/-
  Signal policy (`TrafficController.calculate_signal_duration`,
  traffic_rules.py lines 1-52).
-/

/-- One signal decision record. -/
structure SignalDecision where
  action : String
  duration : ℤ
  reason : String
deriving DecidableEq, Repr

/-- `TrafficController` state: the only mutable field
(`ambulance_priority_active`, set on rule 1 and never read back). -/
structure TrafficController where
  ambulance_priority_active : Bool
deriving DecidableEq, Repr

/-- `self.standard_green_duration` (traffic_rules.py line 3). -/
def standard_green_duration : ℤ := 30

/-- `self.min_green_duration` (line 4). -/
def min_green_duration : ℤ := 10

/-- `self.max_green_duration` (line 5). -/
def max_green_duration : ℤ := 60

/-- `TrafficController.calculate_signal_duration` (lines 8-52): emergency
priority, then high density, then low density, then the default. -/
def TrafficController.calculate_signal_duration (c : TrafficController)
    (lane_density : ℤ) (ambulance_detected : Bool) :
    SignalDecision × TrafficController :=
  if ambulance_detected then
    (⟨"GREEN", 60, "Ambulance Detected - Green Corridor Active"⟩,
      { c with ambulance_priority_active := true })
  else if 15 < lane_density then
    (⟨"GREEN", min max_green_duration (standard_green_duration + lane_density * 2),
      "High Density (" ++ toString lane_density ++ ") - Extending Green"⟩, c)
  else if lane_density < 5 then
    (⟨"GREEN", min_green_duration, "Low Density - Minimal Green"⟩, c)
  else
    (⟨"GREEN", standard_green_duration, "Normal Flow"⟩, c)

/-- The car-box smoother constructed by the worker pipeline
(`JunctionProcessor.__init__`, processor.py line 187:
`self.car_smoother = BoxSmoother(window=10)`). -/
def workerCarSmoother : BoxSmoother := BoxSmoother.create 10

/-
  Helper lemmas.
-/

/-- The last `n` elements of a list. -/
def lastN (n : ℕ) (l : List QBox) : List QBox := l.drop (l.length - n)

/-- The boxes supplied for one track id, in order. -/
def suppliedFor (track_id : ℕ) (calls : List (ℕ × QBox)) : List QBox :=
  calls.filterMap fun c => if c.1 = track_id then some c.2 else none

/-- A sequence of `update_text` calls applied in order. -/
def runPlateText (t : PlateSmoother)
    (calls : List (ℕ × Option String × Option ℚ)) : PlateSmoother :=
  calls.foldl (fun acc c => acc.update_text c.1 c.2.1 c.2.2) t

/-- A concrete raw box for witnesses. -/
def qb1 : QBox := ![1, 2, 3, 4]

/-- A concrete plate-consolidator state with one stored record. -/
def plateT0 : PlateSmoother :=
  ⟨5, fun _ => [], fun j => if j = 4 then some ("XYZ", 1/4) else none⟩

/-- A well-formed detection box: finite with positive extent. -/
def wfDet (b : Box) : Prop :=
  ∃ a c e f : ℚ, b = Box.ofQ a c e f ∧ a < e ∧ c < f

/-- A well-formed tracker row: finite with non-negative extent. -/
def wfTrk (b : Box) : Prop :=
  ∃ a c e f : ℚ, b = Box.ofQ a c e f ∧ a ≤ e ∧ c ≤ f

/-- The trackers appended by the spawn phase, with their ids. -/
def spawnList (count : ℕ) (dets : List Box) : List ℕ → List KalmanBoxTracker
  | [] => []
  | i :: rest =>
      KalmanBoxTracker.init (dets.getD i Box.zero) count
        :: spawnList (count + 1) dets rest

/-- A track whose state has aspect ratio 0: its predicted box is
`[cx, -inf, cx, +inf]` — non-finite but NaN-free. -/
def tDegen : KalmanBoxTracker :=
  { x := ![fin 1, fin 1, fin 4, fin 0, fin 0, fin 0, fin 0]
    P := Pmat0
    time_since_update := 0
    id := 0
    history := []
    hits := 0
    hit_streak := 0
    age := 0 }

/-- A track whose state already contains NaN: its predicted box contains
NaN. -/
def tNaN : KalmanBoxTracker :=
  { x := ![nan, fin 1, fin 4, fin 1, fin 0, fin 0, fin 0]
    P := Pmat0
    time_since_update := 0
    id := 0
    history := []
    hits := 0
    hit_streak := 0
    age := 0 }

def sb1 : Box := Box.ofQ 0 0 2 2

def sb2 : Box := Box.ofQ 10 10 12 12

def sb3 : Box := Box.ofQ 20 20 22 22

def dets3 : List Box := [sb1, sb2, sb3]

def k1 : KalmanBoxTracker := KalmanBoxTracker.init sb1 0

def k2 : KalmanBoxTracker := KalmanBoxTracker.init sb2 1

def k3 : KalmanBoxTracker := KalmanBoxTracker.init sb3 2

/-- State after frame 1: three freshly spawned tracks. -/
def s1 : SortState := ⟨1, 3, fin (3/10), [k1, k2, k3], 1⟩

def k1p : KalmanBoxTracker := (k1.predict).1

def k2p : KalmanBoxTracker := (k2.predict).1

def k3p : KalmanBoxTracker := (k3.predict).1

/-- Frame-2 tracks, with the Kalman mean written in residual-zero form. -/
def k1w : KalmanBoxTracker :=
  { k1p with
    time_since_update := 0
    history := []
    hits := k1p.hits + 1
    hit_streak := k1p.hit_streak + 1
    x := k1p.x
    P := (kfUpdate k1p.P k1p.x (convert_bbox_to_z sb1)).2 }

def k2w : KalmanBoxTracker :=
  { k2p with
    time_since_update := 0
    history := []
    hits := k2p.hits + 1
    hit_streak := k2p.hit_streak + 1
    x := k2p.x
    P := (kfUpdate k2p.P k2p.x (convert_bbox_to_z sb2)).2 }

def k3w : KalmanBoxTracker :=
  { k3p with
    time_since_update := 0
    history := []
    hits := k3p.hits + 1
    hit_streak := k3p.hit_streak + 1
    x := k3p.x
    P := (kfUpdate k3p.P k3p.x (convert_bbox_to_z sb3)).2 }

/-- State after frame 2. -/
def s2w : SortState := ⟨1, 3, fin (3/10), [k1w, k2w, k3w], 2⟩

def k1q : KalmanBoxTracker := (k1w.predict).1

def k2q : KalmanBoxTracker := (k2w.predict).1

def k3q : KalmanBoxTracker := (k3w.predict).1

/-- Frame-3 tracks, again in residual-zero form. -/
def k1v : KalmanBoxTracker :=
  { k1q with
    time_since_update := 0
    history := []
    hits := k1q.hits + 1
    hit_streak := k1q.hit_streak + 1
    x := k1q.x
    P := (kfUpdate k1q.P k1q.x (convert_bbox_to_z sb1)).2 }

def k2v : KalmanBoxTracker :=
  { k2q with
    time_since_update := 0
    history := []
    hits := k2q.hits + 1
    hit_streak := k2q.hit_streak + 1
    x := k2q.x
    P := (kfUpdate k2q.P k2q.x (convert_bbox_to_z sb2)).2 }

def k3v : KalmanBoxTracker :=
  { k3q with
    time_since_update := 0
    history := []
    hits := k3q.hits + 1
    hit_streak := k3q.hit_streak + 1
    x := k3q.x
    P := (kfUpdate k3q.P k3q.x (convert_bbox_to_z sb3)).2 }

/-- State after frame 3. -/
def s3w : SortState := ⟨1, 3, fin (3/10), [k1v, k2v, k3v], 3⟩

/-- The output rows common to frames 1-3: all three tracks, reversed
spawn order, reported ids 3, 2, 1. -/
def outRows3 : List OutRow := [⟨sb3, 3⟩, ⟨sb2, 2⟩, ⟨sb1, 1⟩]

theorem FP.fin_add (a b : ℚ) : fin a + fin b = fin (a + b) := rfl

theorem FP.fin_sub (a b : ℚ) : fin a - fin b = fin (a - b) := by
  show fin (a + -b) = fin (a - b)
  rw [← sub_eq_add_neg]

theorem FP.fin_mul (a b : ℚ) : fin a * fin b = fin (a * b) := rfl

theorem FP.fin_div (a b : ℚ) (hb : b ≠ 0) : fin a / fin b = fin (a / b) := by
  show FP.div (fin a) (fin b) = fin (a / b)
  simp [FP.div, hb]

theorem FP.fpMax_fin (a b : ℚ) : fpMax (fin a) (fin b) = fin (max a b) := by
  unfold fpMax FP.lt
  by_cases h : a < b
  · simp [h, max_eq_right h.le]
  · simp [h, max_eq_left (not_lt.mp h)]

theorem FP.fpMin_fin (a b : ℚ) : fpMin (fin a) (fin b) = fin (min a b) := by
  unfold fpMin FP.lt
  by_cases h : b < a
  · simp [h, min_eq_right h.le]
  · simp [h, min_eq_left (not_lt.mp h)]

theorem FP.lt_fin (a b : ℚ) : FP.lt (fin a) (fin b) = decide (a < b) := rfl

theorem FP.le_fin (a b : ℚ) : FP.le (fin a) (fin b) = decide (a ≤ b) := rfl

/-- When the innovation is exactly zero, the Kalman correction leaves the
mean unchanged, whatever the gain happens to be (the gain entries are
finite rationals, and a finite value times zero is zero). -/
theorem kfUpdate_fst_of_innovation_zero
    (P : Matrix (Fin 7) (Fin 7) ℚ) (x : Fin 7 → FP) (z : Fin 4 → FP)
    (h : ∀ i, z i - qmatvec Hmat x i = fin 0) :
    (kfUpdate P x z).1 = x := by
  funext i
  show x i + fpSum ((List.finRange 4).map fun j =>
    fin (kgain P i j) * (z j - qmatvec Hmat x j)) = x i
  have hz : ∀ (q : ℚ) (j : Fin 4), fin q * (z j - qmatvec Hmat x j) = fin 0 := by
    intro q j
    rw [h j]
    show fin (q * 0) = fin 0
    rw [mul_zero]
  simp only [hz]
  show x i + FP.add (fin 0) (FP.add (fin 0) (FP.add (fin 0) (FP.add (fin 0) (fin 0)))) = x i
  have h0 : FP.add (fin 0) (fin 0) = fin 0 := by
    show fin (0 + 0) = fin 0
    rw [add_zero]
  rw [h0, h0, h0, h0]
  cases hx : x i
  case fin q =>
    show fin (q + 0) = fin q
    rw [add_zero]
  case pinf => rfl
  case ninf => rfl
  case nan => rfl

/-- `KalmanBoxTracker.update` with a zero innovation: bookkeeping advances,
the state mean is unchanged. -/
theorem KalmanBoxTracker.update_of_innovation_zero (t : KalmanBoxTracker) (b : Box)
    (h : ∀ i, convert_bbox_to_z b i - qmatvec Hmat t.x i = fin 0) :
    t.update b =
      { t with
        time_since_update := 0
        history := []
        hits := t.hits + 1
        hit_streak := t.hit_streak + 1
        x := t.x
        P := (kfUpdate t.P t.x (convert_bbox_to_z b)).2 } := by
  unfold KalmanBoxTracker.update
  rw [kfUpdate_fst_of_innovation_zero _ _ _ h]

/-
  Smoother bookkeeping lemmas.
-/

/-- A deque append never exceeds the larger of the capacity and the
previous length. -/
theorem dequeAppend_length_le_window (w : ℕ) (l : List QBox) (b : QBox) :
    (dequeAppend w l b).length ≤ max w l.length := by
  unfold dequeAppend
  by_cases h : (l ++ [b]).length ≤ w
  · simp only [h, if_pos]
    omega
  · simp only [h, if_neg, not_false_iff]
    simp only [List.length_drop, List.length_append, List.length_cons,
      List.length_nil]
    omega

/-- `update` does not change the configured window. -/
theorem BoxSmoother.update_window (s : BoxSmoother) (i : ℕ) (b : QBox) :
    ((s.update i b).1).window = s.window := rfl

/-- One update keeps every buffer within the window. -/
theorem BoxSmoother.update_buffers_le (s : BoxSmoother) (i k : ℕ) (b : QBox)
    (h : ∀ j, (s.buffers j).length ≤ s.window) :
    (((s.update i b).1).buffers k).length ≤ s.window := by
  show (if k = i then dequeAppend s.window (s.buffers i) b else s.buffers k).length
      ≤ s.window
  by_cases hk : k = i
  · rw [if_pos hk]
    exact le_trans (dequeAppend_length_le_window s.window (s.buffers i) b)
      (max_le le_rfl (h i))
  · rw [if_neg hk]
    exact h k

/-- Buffers stay within the window along any run. -/
theorem runSmoother_length_le (calls : List (ℕ × QBox)) :
    ∀ (s : BoxSmoother), (∀ j, (s.buffers j).length ≤ s.window) →
      ∀ j, (((runSmoother s calls).buffers j).length ≤ (runSmoother s calls).window) := by
  induction calls with
  | nil => intro s h j; exact h j
  | cons c rest ih =>
      intro s h j
      refine ih _ ?_ j
      intro k
      exact BoxSmoother.update_buffers_le s c.1 k c.2 h

/-- A run preserves the configured window. -/
theorem runSmoother_window (calls : List (ℕ × QBox)) :
    ∀ s : BoxSmoother, (runSmoother s calls).window = s.window := by
  induction calls with
  | nil => intro s; rfl
  | cons c rest ih =>
      intro s
      show (runSmoother ((s.update c.1 c.2).1) rest).window = s.window
      rw [ih]
      rfl

/-- C10: in the worker pipeline as constructed (`BoxSmoother(window=10)`
for car boxes), the buffer of any track can never hold the 20 samples
`check_wrong_way` requires, so the check is false for every track id and
every input box after any sequence of smoother updates — the worker never
flags or logs a wrong-way violation. -/
theorem C10_worker_never_wrong_way (calls : List (ℕ × QBox)) (track_id : ℕ)
    (current_pos : QBox) :
    check_wrong_way (runSmoother workerCarSmoother calls) track_id current_pos
      = false := by
  have hlen : ((runSmoother workerCarSmoother calls).buffers track_id).length ≤
      (runSmoother workerCarSmoother calls).window := by
    refine runSmoother_length_le calls _ ?_ track_id
    intro j
    show (([] : List QBox)).length ≤ 10
    simp
  have hw : (runSmoother workerCarSmoother calls).window = 10 :=
    runSmoother_window calls workerCarSmoother
  unfold check_wrong_way
  have hlt : ((runSmoother workerCarSmoother calls).buffers track_id).length < 20 := by
    omega
  simp [hlt]

/-- C9: `check_wrong_way(t, b)` returns true exactly when the car-box
smoother buffers at least 20 boxes for track `t` and the y1 coordinate of
`b` is less than the y1 coordinate of the oldest buffered box minus 50
pixels; with fewer than 20 samples it is always false.  (The function body
is identical in the backend, ai_pipeline.py 323-340, and the worker,
processor.py 278-284.) -/
theorem C9_check_wrong_way_iff (s : BoxSmoother) (track_id : ℕ)
    (current_pos : QBox) :
    check_wrong_way s track_id current_pos = true ↔
      20 ≤ (s.buffers track_id).length ∧
      current_pos 1 < ((s.buffers track_id).getD 0 fun _ => 0) 1 - 50 := by
  unfold check_wrong_way
  by_cases h : (s.buffers track_id).length < 20
  · simp only [if_pos h]
    constructor
    · intro hc
      exact absurd hc (by simp)
    · intro hc
      omega
  · simp only [if_neg h]
    constructor
    · intro hc
      exact ⟨by omega, of_decide_eq_true hc⟩
    · intro hc
      exact decide_eq_true hc.2

/-- C6: the signal policy is evaluated in strict priority order —
emergency (GREEN, 60s), then density > 15 (GREEN, min(60, 30 + 2·density)),
then density < 5 (GREEN, 10s), else GREEN, 30s — each with the matching
rule's reason label, and the action is GREEN for every input
(traffic_rules.py lines 8-52). -/
theorem C6_signal_policy (c : TrafficController) (density : ℤ) (emergency : Bool) :
    (c.calculate_signal_duration density emergency).1.action = "GREEN" ∧
    (c.calculate_signal_duration density emergency).1.duration =
      (if emergency then 60
       else if 15 < density then min 60 (30 + density * 2)
       else if density < 5 then 10
       else 30) ∧
    (c.calculate_signal_duration density emergency).1.reason =
      (if emergency then "Ambulance Detected - Green Corridor Active"
       else if 15 < density then
         "High Density (" ++ toString density ++ ") - Extending Green"
       else if density < 5 then "Low Density - Minimal Green"
       else "Normal Flow") := by
  unfold TrafficController.calculate_signal_duration
  unfold standard_green_duration min_green_duration max_green_duration
  by_cases he : emergency
  · simp [he]
  · by_cases h15 : 15 < density
    · simp [he, h15]
    · by_cases h5 : density < 5
      · simp [he, h15, h5]
      · simp [he, h15, h5]

theorem suppliedFor_cons (j : ℕ) (c : ℕ × QBox) (rest : List (ℕ × QBox)) :
    suppliedFor j (c :: rest)
      = (if c.1 = j then [c.2] else []) ++ suppliedFor j rest := by
  unfold suppliedFor
  rw [List.filterMap_cons]
  by_cases h : c.1 = j
  · rw [if_pos h, if_pos h]
    rfl
  · rw [if_neg h, if_neg h]
    rfl

/-- Appending to a deque holding the last `w` elements keeps exactly the
`w` most recent elements. -/
theorem dequeAppend_lastN (w : ℕ) (hw : 0 < w) (l : List QBox) (b : QBox) :
    dequeAppend w (lastN w l) b = lastN w (l ++ [b]) := by
  unfold dequeAppend lastN
  by_cases h : l.length + 1 ≤ w
  · have h0 : l.length - w = 0 := by omega
    rw [h0, List.drop_zero]
    rw [if_pos (by simp only [List.length_append, List.length_cons,
      List.length_nil]; omega)]
    have h1 : (l ++ [b]).length - w = 0 := by
      simp only [List.length_append, List.length_cons, List.length_nil]
      omega
    rw [h1, List.drop_zero]
  · have hwl : w ≤ l.length := by omega
    have hlen : (l.drop (l.length - w)).length = w := by
      simp only [List.length_drop]
      omega
    rw [if_neg (by simp only [List.length_append, hlen, List.length_cons,
      List.length_nil]; omega)]
    simp only [List.length_append, hlen, List.length_cons, List.length_nil]
    have h1 : w + 1 - w = 1 := by omega
    rw [h1]
    rw [List.drop_append_of_le_length (by omega)]
    rw [List.drop_drop]
    rw [List.drop_append_of_le_length (by omega)]
    congr 2
    omega

/-- Along any run, each track's buffer holds exactly the window-many most
recently supplied boxes for that id (relative to a correct starting
configuration). -/
theorem runSmoother_buffers_eq (w : ℕ) (hw : 0 < w) :
    ∀ (calls : List (ℕ × QBox)) (s : BoxSmoother) (pre : ℕ → List QBox),
      s.window = w → (∀ j, s.buffers j = lastN w (pre j)) →
      ∀ j, (runSmoother s calls).buffers j
        = lastN w (pre j ++ suppliedFor j calls) := by
  intro calls
  induction calls with
  | nil =>
      intro s pre hwin hbuf j
      show s.buffers j = lastN w (pre j ++ suppliedFor j [])
      have : suppliedFor j ([] : List (ℕ × QBox)) = [] := rfl
      rw [this, List.append_nil]
      exact hbuf j
  | cons c rest ih =>
      intro s pre hwin hbuf j
      show (runSmoother ((s.update c.1 c.2).1) rest).buffers j = _
      have hres := ih ((s.update c.1 c.2).1)
        (fun k => pre k ++ (if c.1 = k then [c.2] else []))
        (by rw [← hwin]; rfl)
        (by
          intro k
          show (if k = c.1 then dequeAppend s.window (s.buffers c.1) c.2
            else s.buffers k)
            = lastN w (pre k ++ (if c.1 = k then [c.2] else []))
          by_cases hk : k = c.1
          · rw [if_pos hk, if_pos (hk ▸ rfl : c.1 = k)]
            subst hk
            rw [hbuf c.1, hwin]
            exact dequeAppend_lastN w hw (pre c.1) c.2
          · rw [if_neg hk, if_neg (fun h => hk h.symm), List.append_nil]
            exact hbuf k) j
      rw [hres, suppliedFor_cons, ← List.append_assoc]

/-- Mean of a nonempty constant buffer. -/
theorem qboxMean_const (l : List QBox) (b : QBox) (hne : l ≠ [])
    (h : ∀ x ∈ l, x = b) : qboxMean l = b := by
  funext i
  show ((l.map fun x => x i).sum) / (l.length : ℚ) = b i
  have hsum : (l.map fun x => x i).sum = (l.map fun x => x i).length • b i := by
    apply List.sum_eq_card_nsmul
    intro x hx
    obtain ⟨y, hy, rfl⟩ := List.mem_map.mp hx
    rw [h y hy]
  rw [hsum, List.length_map, nsmul_eq_mul]
  have hne' : (l.length : ℚ) ≠ 0 := by
    simp only [ne_eq, Nat.cast_eq_zero, List.length_eq_zero]
    exact hne
  field_simp

/-- C7: `box_smoother.update(id, box)` returns the element-wise arithmetic
mean of the `min(samples-seen, window)` most recently supplied boxes for
that id (the box just supplied included), for every id and every prior
call sequence; in particular, if every box supplied for the id equals the
current box, the returned smoothed box is that box
(BoxSmoother.update, ai_pipeline.py 228-234 / processor.py 52-58). -/
theorem C7_smoother_mean (w : ℕ) (hw : 0 < w) (calls : List (ℕ × QBox))
    (track_id : ℕ) (bbox : QBox) :
    ((runSmoother (BoxSmoother.create w) calls).update track_id bbox).2
      = qboxMean ((suppliedFor track_id calls ++ [bbox]).drop
          ((suppliedFor track_id calls ++ [bbox]).length
            - min (suppliedFor track_id calls ++ [bbox]).length w)) ∧
    ((∀ x ∈ suppliedFor track_id calls ++ [bbox], x = bbox) →
      ((runSmoother (BoxSmoother.create w) calls).update track_id bbox).2
        = bbox) := by
  have hbuf : (runSmoother (BoxSmoother.create w) calls).buffers track_id
      = lastN w (suppliedFor track_id calls) := by
    have h0 := runSmoother_buffers_eq w hw calls (BoxSmoother.create w)
      (fun _ => []) rfl
      (by
        intro j
        show ([] : List QBox) = [].drop (List.length [] - w)
        rw [List.drop_nil])
      track_id
    rw [h0]
    rfl
  have hwin : (runSmoother (BoxSmoother.create w) calls).window = w :=
    runSmoother_window calls (BoxSmoother.create w)
  have hupd : ((runSmoother (BoxSmoother.create w) calls).update track_id bbox).2
      = qboxMean (lastN w (suppliedFor track_id calls ++ [bbox])) := by
    show qboxMean (dequeAppend
      ((runSmoother (BoxSmoother.create w) calls).window)
      ((runSmoother (BoxSmoother.create w) calls).buffers track_id) bbox) = _
    rw [hbuf, hwin, dequeAppend_lastN w hw]
  constructor
  · rw [hupd]
    unfold lastN
    have hmm : (suppliedFor track_id calls ++ [bbox]).length
        - min (suppliedFor track_id calls ++ [bbox]).length w
        = (suppliedFor track_id calls ++ [bbox]).length - w := by
      omega
    rw [hmm]
  · intro hall
    rw [hupd]
    apply qboxMean_const _ bbox
    · unfold lastN
      intro hcon
      have hlc := congrArg List.length hcon
      simp only [List.length_drop, List.length_nil, List.length_append,
        List.length_cons] at hlc
      omega
    · intro x hx
      exact hall x (List.mem_of_mem_drop hx)

/-- One `update_text` call never lowers (or clears) a stored record's
score, for any track id. -/
theorem update_text_mono (t : PlateSmoother) (i : ℕ) (text : Option String)
    (score : Option ℚ) (j : ℕ) (rec : String × ℚ)
    (h : t.best_text j = some rec) :
    ∃ rec', (t.update_text i text score).best_text j = some rec'
      ∧ rec.2 ≤ rec'.2 := by
  unfold PlateSmoother.update_text
  rcases text with _ | s
  · exact ⟨rec, h, le_rfl⟩
  · dsimp only
    by_cases hs : s = ""
    · rw [if_pos hs]
      exact ⟨rec, h, le_rfl⟩
    · rw [if_neg hs]
      by_cases hrep : ((t.best_text i).getD ("0", 0)).2 ≤ score.getD 0
      · rw [if_pos hrep]
        by_cases hj : j = i
        · refine ⟨(s, score.getD 0), by simp [hj], ?_⟩
          subst hj
          rw [h] at hrep
          exact hrep
        · exact ⟨rec, by simp [hj, h], le_rfl⟩
      · rw [if_neg hrep]
        exact ⟨rec, h, le_rfl⟩

/-- C8: for every track id, the stored plate record is never cleared and
its score is non-decreasing across any sequence of `update_text` calls; a
call with absent or empty text leaves the state unchanged; and a nonempty
call replaces the stored record exactly when the new score (0.0 when
absent) is ≥ the stored score, ties installing the newer text
(PlateSmoother.update_text, ai_pipeline.py 244-248 / processor.py 68-72). -/
theorem C8_plate_monotone (t : PlateSmoother) (track_id : ℕ) :
    (∀ score, t.update_text track_id none score = t) ∧
    (∀ score, t.update_text track_id (some "") score = t) ∧
    (∀ s score, s ≠ "" →
      (t.update_text track_id (some s) score).best_text track_id =
        (if ((t.best_text track_id).getD ("0", 0)).2 ≤ score.getD 0
         then some (s, score.getD 0)
         else t.best_text track_id)) ∧
    (∀ (calls : List (ℕ × Option String × Option ℚ)) (rec : String × ℚ),
      t.best_text track_id = some rec →
      ∃ rec', (runPlateText t calls).best_text track_id = some rec'
        ∧ rec.2 ≤ rec'.2) := by
  refine ⟨fun score => rfl, ?_, ?_, ?_⟩
  · intro score
    unfold PlateSmoother.update_text
    dsimp only
    rw [if_pos rfl]
  · intro s score hs
    unfold PlateSmoother.update_text
    dsimp only
    rw [if_neg hs]
    by_cases hrep : ((t.best_text track_id).getD ("0", 0)).2 ≤ score.getD 0
    · rw [if_pos hrep, if_pos hrep]
      simp
    · rw [if_neg hrep, if_neg hrep]
  · intro calls
    induction calls generalizing t with
    | nil =>
        intro rec h
        exact ⟨rec, h, le_rfl⟩
    | cons c rest ih =>
        intro rec h
        obtain ⟨rec1, h1, hle1⟩ :=
          update_text_mono t c.1 c.2.1 c.2.2 track_id rec h
        obtain ⟨rec2, h2, hle2⟩ := ih (t.update_text c.1 c.2.1 c.2.2) rec1 h1
        exact ⟨rec2, h2, le_trans hle1 hle2⟩

theorem C7_smoother_mean_witness :
    ((runSmoother (BoxSmoother.create 3) [(5, qb1)]).update 5 qb1).2 = qb1 :=
  (C7_smoother_mean 3 (by decide) [(5, qb1)] 5 qb1).2 (by decide)

theorem C8_plate_monotone_witness :
    ∃ rec', (runPlateText plateT0 [(4, some "ABC1234", some (1/2))]).best_text 4
      = some rec' ∧ (("XYZ", (1/4 : ℚ)) : String × ℚ).2 ≤ rec'.2 :=
  (C8_plate_monotone plateT0 4).2.2.2 [(4, some "ABC1234", some (1/2))]
    ("XYZ", 1/4) rfl

/-
  IOU finiteness for well-formed boxes (spec §3/§7 preconditions:
  detections have x1<x2, y1<y2; association tracker rows are finite by
  construction after the masked-row compression).
-/

/-- IOU of a well-formed detection with a well-formed tracker row is a
finite rational. -/
theorem iou_fin_of_wf (d b : Box) (hd : wfDet d) (hb : wfTrk b) :
    ∃ q : ℚ, iou d b = fin q := by
  obtain ⟨a, c, e, f, rfl, hae, hcf⟩ := hd
  obtain ⟨a', c', e', f', rfl, hae', hcf'⟩ := hb
  unfold iou Box.ofQ
  dsimp only
  rw [FP.fpMax_fin, FP.fpMax_fin, FP.fpMin_fin, FP.fpMin_fin,
    FP.fin_sub, FP.fin_sub, FP.fpMax_fin, FP.fpMax_fin, FP.fin_mul,
    FP.fin_sub, FP.fin_sub, FP.fin_sub, FP.fin_sub, FP.fin_mul, FP.fin_mul,
    FP.fin_add, FP.fin_sub]
  set W := max 0 (min e e' - max a a') with hW
  set H := max 0 (min f f' - max c c') with hH
  have hWnn : 0 ≤ W := le_max_left _ _
  have hHnn : 0 ≤ H := le_max_left _ _
  have hWle : W ≤ e' - a' := by
    rw [hW]
    apply max_le
    · linarith
    · have h1 : min e e' ≤ e' := min_le_right _ _
      have h2 : a' ≤ max a a' := le_max_right _ _
      linarith
  have hHle : H ≤ f' - c' := by
    rw [hH]
    apply max_le
    · linarith
    · have h1 : min f f' ≤ f' := min_le_right _ _
      have h2 : c' ≤ max c c' := le_max_right _ _
      linarith
  have hwh : W * H ≤ (e' - a') * (f' - c') :=
    mul_le_mul hWle hHle hHnn (by linarith)
  have hA : 0 < (e - a) * (f - c) :=
    mul_pos (by linarith) (by linarith)
  have hden : (e - a) * (f - c) + (e' - a') * (f' - c') - W * H ≠ 0 := by
    intro hzero
    nlinarith
  refine ⟨W * H / ((e - a) * (f - c) + (e' - a') * (f' - c') - W * H), ?_⟩
  rw [FP.fin_div _ _ hden]

/-- An in-range `getD` is a member of the list. -/
theorem getD_mem {α : Type} (l : List α) (i : ℕ) (d : α)
    (h : i < l.length) : l.getD i d ∈ l := by
  rw [List.getD_eq_getElem l d h]
  exact List.getElem_mem h

/-- The kept matches of the association are the above-threshold filter of
the candidate pairs. -/
theorem associate_matched_sub (solver : Solver) (dets trks : List Box)
    (thr : FP) (m : ℕ × ℕ)
    (hm : m ∈ (associate_detections_to_trackers solver dets trks thr).matched) :
    m ∈ matchedIndices solver dets trks thr ∧
      FP.lt (iouAt dets trks m.1 m.2) thr = false := by
  unfold associate_detections_to_trackers at hm
  by_cases he : trks.isEmpty
  · rw [if_pos he] at hm
    exact absurd hm (by simp)
  · rw [if_neg he] at hm
    have := List.mem_filter.mp hm
    refine ⟨this.1, ?_⟩
    have h2 := this.2
    simp only [Bool.not_eq_true'] at h2
    exact h2

unseal Rat.add Rat.mul Rat.sub Rat.inv in
/-- C2: every detection—track match accepted by the association step has
IOU at least the gating threshold; any candidate pair whose IOU is below
the threshold is rejected with both members reported unmatched; and in the
concrete 0.29-IOU-vs-0.3-threshold scenario the pair is never matched —
the detection spawns a new track and the old track coasts un-updated
(associate_detections_to_trackers, ai_pipeline.py 108-139; Sort.update
162-167). -/
theorem C2_association_gating (solver : Solver) :
    (∀ (dets trks : List Box) (θ : ℚ),
      (∀ d ∈ dets, wfDet d) → (∀ b ∈ trks, wfTrk b) →
      (∀ m ∈ (associate_detections_to_trackers solver dets trks (fin θ)).matched,
        m.1 < dets.length → m.2 < trks.length →
        FP.le (fin θ) (iouAt dets trks m.1 m.2) = true) ∧
      (∀ m ∈ matchedIndices solver dets trks (fin θ),
        FP.lt (iouAt dets trks m.1 m.2) (fin θ) = true →
        m.1 ∈ (associate_detections_to_trackers solver dets trks
          (fin θ)).unmatched_dets ∧
        m.2 ∈ (associate_detections_to_trackers solver dets trks
          (fin θ)).unmatched_trks)) ∧
    (iou (Box.ofQ 0 0 29 100) (Box.ofQ 0 0 100 100) = fin (29/100) ∧
      (SortState.update lapSolver
          ⟨1, 3, fin (3/10), [KalmanBoxTracker.init (Box.ofQ 0 0 100 100) 0], 0⟩
          1 [Box.ofQ 0 0 29 100]).1.trackers.map
            (fun t => (t.id, t.time_since_update, t.hits))
        = [(0, 1, 0), (1, 0, 0)] ∧
      (SortState.update lapSolver
          ⟨1, 3, fin (3/10), [KalmanBoxTracker.init (Box.ofQ 0 0 100 100) 0], 0⟩
          1 [Box.ofQ 0 0 29 100]).2.1 = 2 ∧
      (SortState.update lapSolver
          ⟨1, 3, fin (3/10), [KalmanBoxTracker.init (Box.ofQ 0 0 100 100) 0], 0⟩
          1 [Box.ofQ 0 0 29 100]).2.2 = [⟨Box.ofQ 0 0 29 100, 2⟩]) := by
  constructor
  · intro dets trks θ hdets htrks
    constructor
    · intro m hm h1 h2
      obtain ⟨hmem, hlt⟩ := associate_matched_sub solver dets trks (fin θ) m hm
      obtain ⟨q, hq⟩ := iou_fin_of_wf (dets.getD m.1 Box.zero)
        (trks.getD m.2 Box.zero)
        (hdets _ (getD_mem dets m.1 Box.zero h1))
        (htrks _ (getD_mem trks m.2 Box.zero h2))
      unfold iouAt at hlt ⊢
      rw [hq] at hlt ⊢
      rw [FP.le_fin]
      rw [FP.lt_fin] at hlt
      simp only [decide_eq_false_iff_not, not_lt] at hlt
      exact decide_eq_true hlt
    · intro m hm hlt
      unfold associate_detections_to_trackers
      have he : trks.isEmpty = false := by
        rcases trks with _ | ⟨b, bs⟩
        · unfold matchedIndices at hm
          simp at hm
        · rfl
      rw [if_neg (by rw [he]; exact Bool.false_ne_true)]
      constructor
      · apply List.mem_append_right
        exact List.mem_map_of_mem Prod.fst (List.mem_filter.mpr ⟨hm, hlt⟩)
      · apply List.mem_append_right
        exact List.mem_map_of_mem Prod.snd (List.mem_filter.mpr ⟨hm, hlt⟩)
  · refine ⟨by decide, ?_, by decide, ?_⟩
    · decide
    · decide

unseal Rat.add Rat.mul Rat.sub Rat.inv in
theorem C2_association_gating_witness :
    FP.le (fin (3/10))
      (iouAt [Box.ofQ 0 0 40 100] [Box.ofQ 0 0 100 100] 0 0) = true := by
  refine ((C2_association_gating lapSolver).1 [Box.ofQ 0 0 40 100]
    [Box.ofQ 0 0 100 100] (3/10) ?_ ?_).1 (0, 0) ?_ (by decide) (by decide)
  · intro d hd
    rw [List.eq_of_mem_singleton hd]
    exact ⟨0, 0, 40, 100, rfl, by norm_num, by norm_num⟩
  · intro b hb
    rw [List.eq_of_mem_singleton hb]
    exact ⟨0, 0, 100, 100, rfl, by norm_num, by norm_num⟩
  · decide

unseal Rat.add Rat.mul Rat.sub Rat.inv in
/-- C5 counterexample: a track spawned on frame 1, matched on frame 2, and
unmatched on frame 3 still has `hit_streak = 1` at the end of the frame-3
`Sort.update` call (its `time_since_update` is 1, so it was not matched),
refuting "hit_streak equals 0 at the end of any update call in which the
track was not matched" — the reset in `predict` fires only on the *next*
call, because `time_since_update` is still 0 when the first unmatched
frame's predict runs. -/
theorem C5_counterexample :
    ((SortState.update lapSolver
        (SortState.update lapSolver
          (SortState.update lapSolver SortState.init 0 [Box.ofQ 0 0 2 2]).1
          (SortState.update lapSolver SortState.init 0 [Box.ofQ 0 0 2 2]).2.1
          [Box.ofQ 0 0 2 2]).1
        (SortState.update lapSolver
          (SortState.update lapSolver SortState.init 0 [Box.ofQ 0 0 2 2]).1
          (SortState.update lapSolver SortState.init 0 [Box.ofQ 0 0 2 2]).2.1
          [Box.ofQ 0 0 2 2]).2.1
        []).1.trackers.map
      fun t => (t.id, t.time_since_update, t.hit_streak)) = [(0, 1, 1)] := by
  decide

/-- C5 amended: `hits` never decreases (predict leaves it unchanged, update
increments it); over a run in which the track is matched each frame, both
`hits` and `hit_streak` increase by 1 per frame; and `hit_streak` is reset
to 0 by the predict phase of a call entered with `time_since_update > 0`
(a second consecutive unmatched frame) — not by the first unmatched frame
itself (KalmanBoxTracker.predict/update, ai_pipeline.py 87-103). -/
theorem C5_amended_streak (t : KalmanBoxTracker) (b : Box) :
    ((t.predict).1.hits = t.hits ∧ (t.update b).hits = t.hits + 1) ∧
    (t.time_since_update = 0 →
      ((t.predict).1.update b).hit_streak = t.hit_streak + 1 ∧
      ((t.predict).1.update b).hits = t.hits + 1) ∧
    (0 < t.time_since_update →
      (t.predict).1.hit_streak = 0 ∧ (t.predict).1.hits = t.hits) := by
  refine ⟨⟨rfl, rfl⟩, ?_, ?_⟩
  · intro h
    constructor
    · show (t.predict).1.hit_streak + 1 = t.hit_streak + 1
      show (if 0 < t.time_since_update then 0 else t.hit_streak) + 1 = _
      rw [h]
      rw [if_neg (by omega)]
    · rfl
  · intro h
    constructor
    · show (if 0 < t.time_since_update then 0 else t.hit_streak) = 0
      rw [if_pos h]
    · rfl

theorem C5_amended_streak_witness :
    ((((KalmanBoxTracker.init (Box.ofQ 0 0 2 2) 0).predict).1.update
        (Box.ofQ 0 0 2 2)).hit_streak = 0 + 1) ∧
    (((((KalmanBoxTracker.init (Box.ofQ 0 0 2 2) 0).predict).1.predict).1.hit_streak
        = 0)) :=
  ⟨((C5_amended_streak (KalmanBoxTracker.init (Box.ofQ 0 0 2 2) 0)
      (Box.ofQ 0 0 2 2)).2.1 rfl).1,
   ((C5_amended_streak ((KalmanBoxTracker.init (Box.ofQ 0 0 2 2) 0).predict).1
      (Box.ofQ 0 0 2 2)).2.2 (by decide)).1⟩

/-
  Identity bookkeeping lemmas for `Sort.update`.
-/

/-- Setting an index to an id-preserving update of the element at that
index leaves the id list unchanged. -/
theorem map_id_set_update (g : KalmanBoxTracker → KalmanBoxTracker)
    (hg : ∀ x, (g x).id = x.id) (d : KalmanBoxTracker) :
    ∀ (l : List KalmanBoxTracker) (i : ℕ),
      ((l.set i (g (l.getD i d))).map KalmanBoxTracker.id)
        = l.map KalmanBoxTracker.id := by
  intro l
  induction l with
  | nil => intro i; rfl
  | cons a as ih =>
      intro i
      cases i with
      | zero =>
          show (g a).id :: as.map KalmanBoxTracker.id
            = a.id :: as.map KalmanBoxTracker.id
          rw [hg a]
      | succ n =>
          show a.id :: ((as.set n (g (as.getD n d))).map KalmanBoxTracker.id)
            = a.id :: as.map KalmanBoxTracker.id
          rw [ih n]

/-- The matched-update phase preserves the id list. -/
theorem applyMatches_map_id (dets : List Box) :
    ∀ (ms : List (ℕ × ℕ)) (trackers : List KalmanBoxTracker),
      (applyMatches trackers dets ms).map KalmanBoxTracker.id
        = trackers.map KalmanBoxTracker.id := by
  intro ms
  induction ms with
  | nil => intro trackers; rfl
  | cons m rest ih =>
      intro trackers
      show (applyMatches (trackers.set m.2
        ((trackers.getD m.2 (KalmanBoxTracker.init Box.zero 0)).update
          (dets.getD m.1 Box.zero))) dets rest).map KalmanBoxTracker.id = _
      rw [ih]
      exact map_id_set_update (fun x => x.update (dets.getD m.1 Box.zero))
        (fun x => rfl) (KalmanBoxTracker.init Box.zero 0) trackers m.2

/-- The spawn phase appends `spawnList` and advances the counter by the
number of unmatched detections. -/
theorem spawnPhase_eq (dets : List Box) :
    ∀ (u : List ℕ) (trackers : List KalmanBoxTracker) (count : ℕ),
      spawnPhase trackers count dets u
        = (trackers ++ spawnList count dets u, count + u.length) := by
  intro u
  induction u with
  | nil => intro trackers count; simp [spawnPhase, spawnList]
  | cons i rest ih =>
      intro trackers count
      show spawnPhase (trackers ++ [KalmanBoxTracker.init (dets.getD i Box.zero)
        count]) (count + 1) dets rest = _
      rw [ih]
      rw [Prod.mk.injEq]
      constructor
      · rw [List.append_assoc]
        rfl
      · show count + 1 + rest.length = count + (rest.length + 1)
        omega

/-- Ids of the spawned trackers: consecutive from the incoming counter. -/
theorem spawnList_map_id (dets : List Box) :
    ∀ (u : List ℕ) (count : ℕ),
      (spawnList count dets u).map KalmanBoxTracker.id
        = List.range' count u.length := by
  intro u
  induction u with
  | nil => intro count; rfl
  | cons i rest ih =>
      intro count
      show count :: (spawnList (count + 1) dets rest).map KalmanBoxTracker.id
        = count :: List.range' (count + 1) rest.length
      rw [ih]

/-- The output-and-retire loop, as a filter/map pair: the returned rows are
the reversed-order confirmed tracks and the retained trackers are those
within `max_age`. -/
theorem outLoop_eq (ma mh fc : ℕ) :
    ∀ l : List KalmanBoxTracker,
      outLoop ma mh fc l
        = ((l.reverse.filter (outCond mh fc)).map reportRow,
           l.filter fun t => t.time_since_update ≤ ma) := by
  intro l
  induction l with
  | nil => rfl
  | cons t rest ih =>
      show ((outLoop ma mh fc rest).1 ++ _, _) = _
      rw [ih]
      rw [Prod.mk.injEq]
      constructor
      · rw [List.reverse_cons, List.filter_append, List.map_append]
        congr 1
        by_cases h : outCond mh fc t
        · simp [h]
        · simp [h]
      · rw [List.filter_cons]
        by_cases h : t.time_since_update ≤ ma
        · simp [h]
        · simp [h]

unseal Rat.add Rat.mul Rat.sub Rat.inv in
/-- C4 counterexample: a track whose predicted box contains ±Inf (but no
NaN) is *not* dropped from the live track set by `Sort.update`: only the
`np.isnan` test feeds `to_del`, while `masked_invalid` removes the Inf row
from the association array alone.  The track stays live, and — because the
compressed array indices no longer line up with `self.trackers` — the
frame's matched detection updates the Inf track (id 0 ends the call with
`time_since_update = 0` and `hits = 1`), while the finite track it was
meant for coasts. -/
theorem C4_counterexample :
    ((tDegen.predict).2.hasNan = false ∧ (tDegen.predict).2.finite = false) ∧
    ((SortState.update lapSolver ⟨1, 3, fin (3/10), [tDegen,
        KalmanBoxTracker.init (Box.ofQ 0 0 2 2) 1], 0⟩ 2
        [Box.ofQ 0 0 2 2]).1.trackers.map
      fun t => (t.id, t.time_since_update, t.hits)) = [(0, 0, 1), (1, 1, 0)] := by
  exact ⟨⟨by decide, by decide⟩, by decide⟩

/-- C4 amended: a track whose predicted box contains NaN *is* silently
dropped from the live track set in that same `Sort.update` call — its id
is absent from the resulting tracker list (so it is never matched or
updated afterwards), and no error is raised (the model is total); tracks
whose predicted box contains only ±Inf are instead merely removed from
the association input and stay live (see the counterexample). -/
theorem C4_amended (solver : Solver) (st : SortState) (count : ℕ)
    (dets : List Box) (t : KalmanBoxTracker) (ht : t ∈ st.trackers)
    (hnan : ((t.predict).2).hasNan = true)
    (hbound : ∀ u ∈ st.trackers, u.id < count)
    (hnodup : (st.trackers.map KalmanBoxTracker.id).Nodup) :
    t.id ∉ ((SortState.update solver st count dets).1.trackers.map
      KalmanBoxTracker.id) := by
  intro hmem
  obtain ⟨u, hu, hid⟩ := List.mem_map.mp hmem
  have hu2 : u ∈ (postSpawn solver st count dets).1 := by
    have hfin : (SortState.update solver st count dets).1.trackers
        = ((postSpawn solver st count dets).1.filter
            fun x => x.time_since_update ≤ st.max_age) := by
      show (outLoop st.max_age st.min_hits (st.frame_count + 1)
        (postSpawn solver st count dets).1).2 = _
      rw [outLoop_eq]
    rw [hfin] at hu
    exact List.mem_of_mem_filter hu
  have hps : (postSpawn solver st count dets).1
      = applyMatches (popNan (predictPhase st.trackers)) dets
          (associate_detections_to_trackers solver dets
            (finiteRows (predictPhase st.trackers)) st.iou_threshold).matched
        ++ spawnList count dets
          (associate_detections_to_trackers solver dets
            (finiteRows (predictPhase st.trackers)) st.iou_threshold).unmatched_dets := by
    show (spawnPhase _ count dets _).1 = _
    rw [spawnPhase_eq]
  rw [hps] at hu2
  rcases List.mem_append.mp hu2 with hL | hR
  · have hidmem : t.id ∈ (popNan (predictPhase st.trackers)).map
        KalmanBoxTracker.id := by
      rw [← applyMatches_map_id dets
        (associate_detections_to_trackers solver dets
          (finiteRows (predictPhase st.trackers)) st.iou_threshold).matched
        (popNan (predictPhase st.trackers))]
      exact hid ▸ List.mem_map_of_mem KalmanBoxTracker.id hL
    obtain ⟨v', hv', hvid⟩ := List.mem_map.mp hidmem
    obtain ⟨p, hp, rfl⟩ := List.mem_map.mp hv'
    have hpf := List.mem_filter.mp hp
    have hp1 : p ∈ st.trackers.map KalmanBoxTracker.predict := hpf.1
    obtain ⟨v, hv, rfl⟩ := List.mem_map.mp hp1
    have hveq : v = t :=
      List.inj_on_of_nodup_map hnodup hv ht hvid
    have hcond := hpf.2
    rw [hveq] at hcond
    rw [hnan] at hcond
    simp at hcond
  · have hsp : t.id ∈ (spawnList count dets
        (associate_detections_to_trackers solver dets
          (finiteRows (predictPhase st.trackers))
          st.iou_threshold).unmatched_dets).map KalmanBoxTracker.id :=
      hid ▸ List.mem_map_of_mem KalmanBoxTracker.id hR
    rw [spawnList_map_id] at hsp
    have hrange := List.mem_range'_1.mp hsp
    have hb := hbound t ht
    omega

unseal Rat.add Rat.mul Rat.sub Rat.inv in
theorem C4_amended_witness :
    (0 : ℕ) ∉ ((SortState.update lapSolver ⟨1, 3, fin (3/10), [tNaN], 0⟩ 1
      []).1.trackers.map KalmanBoxTracker.id) :=
  C4_amended lapSolver ⟨1, 3, fin (3/10), [tNaN], 0⟩ 1 [] tNaN
    (List.mem_singleton.mpr rfl) (by decide)
    (by
      intro u hu
      rw [List.eq_of_mem_singleton hu]
      decide)
    (by decide)

unseal Rat.add Rat.mul Rat.sub Rat.inv in
/-- C3 counterexample: `KalmanBoxTracker.count` is a class attribute, i.e.
one process-global counter shared by every tracker instance.  Tracker A
(freshly constructed) spawns its first track with id 0; tracker B, also
freshly and independently constructed, then spawns its first track with id
1 — B does not get its own id sequence, refuting "the id counter is scoped
to each tracker instance". -/
theorem C3_counterexample :
    ((SortState.update lapSolver SortState.init 0
        [Box.ofQ 0 0 2 2]).1.trackers.map KalmanBoxTracker.id = [0]) ∧
    ((SortState.update lapSolver SortState.init
        (SortState.update lapSolver SortState.init 0 [Box.ofQ 0 0 2 2]).2.1
        [Box.ofQ 0 0 2 2]).1.trackers.map KalmanBoxTracker.id = [1]) := by
  exact ⟨by decide, by decide⟩

/-- Ids surviving the predict/pop phase form a sublist of the incoming id
list. -/
theorem popNan_map_id_sublist (trackers : List KalmanBoxTracker) :
    ((popNan (predictPhase trackers)).map KalmanBoxTracker.id).Sublist
      (trackers.map KalmanBoxTracker.id) := by
  unfold popNan predictPhase
  rw [List.map_map]
  have h1 : ((trackers.map KalmanBoxTracker.predict).filter
      fun p => !p.2.hasNan).Sublist (trackers.map KalmanBoxTracker.predict) :=
    List.filter_sublist _
  have h2 := h1.map (KalmanBoxTracker.id ∘ Prod.fst)
  rw [List.map_map] at h2
  have h3 : trackers.map ((KalmanBoxTracker.id ∘ Prod.fst) ∘
      KalmanBoxTracker.predict) = trackers.map KalmanBoxTracker.id := by
    apply List.map_congr_left
    intro t ht
    rfl
  rw [h3] at h2
  exact h2

/-- Id decomposition of the tracker list entering the output loop:
survivors' ids (a sublist of the old ids) followed by freshly drawn
consecutive ids. -/
theorem postSpawn_map_id (solver : Solver) (st : SortState) (count : ℕ)
    (dets : List Box) :
    (postSpawn solver st count dets).1.map KalmanBoxTracker.id
      = (popNan (predictPhase st.trackers)).map KalmanBoxTracker.id
        ++ List.range' count
          ((associate_detections_to_trackers solver dets
            (finiteRows (predictPhase st.trackers))
            st.iou_threshold).unmatched_dets.length) ∧
    (postSpawn solver st count dets).2
      = count + ((associate_detections_to_trackers solver dets
          (finiteRows (predictPhase st.trackers))
          st.iou_threshold).unmatched_dets).length := by
  have hps : postSpawn solver st count dets
      = (applyMatches (popNan (predictPhase st.trackers)) dets
          (associate_detections_to_trackers solver dets
            (finiteRows (predictPhase st.trackers)) st.iou_threshold).matched
        ++ spawnList count dets
          (associate_detections_to_trackers solver dets
            (finiteRows (predictPhase st.trackers))
            st.iou_threshold).unmatched_dets,
        count + ((associate_detections_to_trackers solver dets
          (finiteRows (predictPhase st.trackers))
          st.iou_threshold).unmatched_dets).length) := by
    show spawnPhase _ count dets _ = _
    rw [spawnPhase_eq]
  rw [hps]
  refine ⟨?_, rfl⟩
  rw [List.map_append, applyMatches_map_id, spawnList_map_id]

/-- The final tracker ids are a sublist of the post-spawn ids. -/
theorem update_trackers_map_id_sublist (solver : Solver) (st : SortState)
    (count : ℕ) (dets : List Box) :
    (((SortState.update solver st count dets).1.trackers).map
      KalmanBoxTracker.id).Sublist
      ((postSpawn solver st count dets).1.map KalmanBoxTracker.id) := by
  have hfin : (SortState.update solver st count dets).1.trackers
      = ((postSpawn solver st count dets).1.filter
          fun x => x.time_since_update ≤ st.max_age) := by
    show (outLoop st.max_age st.min_hits (st.frame_count + 1)
      (postSpawn solver st count dets).1).2 = _
    rw [outLoop_eq]
  rw [hfin]
  exact (List.filter_sublist _).map KalmanBoxTracker.id

/-- C3 amended: track ids are unique and monotonically assigned and never
reused after removal — but process-wide, not per tracker instance: the
counter (`KalmanBoxTracker.count`, a class attribute) is shared by every
`Sort` instance.  For any two tracker states sharing the counter with all
live ids below it and globally distinct: after one instance's `update`,
the counter has not decreased, all live ids across both instances are
still below the counter and still globally distinct, and every surviving
old id belonged to a pre-existing track of that instance (fresh tracks
always draw ids at or above the old counter, so a removed track's id is
never assigned again). -/
theorem C3_amended_global_ids (solver : Solver) (sA sB : SortState)
    (count : ℕ) (dets : List Box)
    (hbound : ∀ u ∈ sA.trackers ++ sB.trackers, u.id < count)
    (hnodup : ((sA.trackers ++ sB.trackers).map KalmanBoxTracker.id).Nodup) :
    count ≤ (SortState.update solver sA count dets).2.1 ∧
    (∀ u ∈ (SortState.update solver sA count dets).1.trackers ++ sB.trackers,
      u.id < (SortState.update solver sA count dets).2.1) ∧
    (((SortState.update solver sA count dets).1.trackers ++ sB.trackers).map
      KalmanBoxTracker.id).Nodup ∧
    (∀ u ∈ (SortState.update solver sA count dets).1.trackers, u.id < count →
      ∃ v ∈ sA.trackers, v.id = u.id) := by
  obtain ⟨hpsid, hpscnt⟩ := postSpawn_map_id solver sA count dets
  set n := ((associate_detections_to_trackers solver dets
    (finiteRows (predictPhase sA.trackers))
    sA.iou_threshold).unmatched_dets).length with hn
  have hcnt : (SortState.update solver sA count dets).2.1 = count + n := hpscnt
  have hfinsub : (((SortState.update solver sA count dets).1.trackers).map
      KalmanBoxTracker.id).Sublist
      ((popNan (predictPhase sA.trackers)).map KalmanBoxTracker.id
        ++ List.range' count n) := by
    have h := update_trackers_map_id_sublist solver sA count dets
    rw [hpsid] at h
    exact h
  have hpopsub := popNan_map_id_sublist sA.trackers
  have hAlt : ∀ m ∈ sA.trackers.map KalmanBoxTracker.id, m < count := by
    intro m hm
    obtain ⟨v, hv, rfl⟩ := List.mem_map.mp hm
    exact hbound v (List.mem_append_left _ hv)
  have hBlt : ∀ m ∈ sB.trackers.map KalmanBoxTracker.id, m < count := by
    intro m hm
    obtain ⟨v, hv, rfl⟩ := List.mem_map.mp hm
    exact hbound v (List.mem_append_right _ hv)
  have hmemA : ∀ m ∈ (((SortState.update solver sA count dets).1.trackers).map
      KalmanBoxTracker.id),
      m ∈ sA.trackers.map KalmanBoxTracker.id ∨ (count ≤ m ∧ m < count + n) := by
    intro m hm
    rcases List.mem_append.mp (hfinsub.subset hm) with h | h
    · exact Or.inl (hpopsub.subset h)
    · exact Or.inr (List.mem_range'_1.mp h)
  refine ⟨by omega, ?_, ?_, ?_⟩
  · intro u hu
    rw [hcnt]
    rcases List.mem_append.mp hu with h | h
    · rcases hmemA u.id (List.mem_map_of_mem KalmanBoxTracker.id h) with h2 | h2
      · have := hAlt u.id h2
        omega
      · omega
    · have := hbound u (List.mem_append_right _ h)
      omega
  · rw [List.map_append]
    have hAB : ((sA.trackers.map KalmanBoxTracker.id)
        ++ (sB.trackers.map KalmanBoxTracker.id)).Nodup := by
      rw [← List.map_append]
      exact hnodup
    obtain ⟨hAnd, hBnd, hABdisj⟩ := List.nodup_append.mp hAB
    have hbig : (((popNan (predictPhase sA.trackers)).map KalmanBoxTracker.id
        ++ List.range' count n)
        ++ sB.trackers.map KalmanBoxTracker.id).Nodup := by
      refine List.nodup_append.mpr ⟨?_, hBnd, ?_⟩
      · refine List.nodup_append.mpr ⟨hpopsub.nodup hAnd,
          List.nodup_range' count n 1 Nat.one_pos, ?_⟩
        intro m hm hm2
        have h1 := hAlt m (hpopsub.subset hm)
        have h2 := (List.mem_range'_1.mp hm2).1
        omega
      · intro m hm hmB
        rcases List.mem_append.mp hm with h | h
        · exact hABdisj (hpopsub.subset h) hmB
        · have h1 := (List.mem_range'_1.mp h).1
          have h2 := hBlt m hmB
          omega
    exact hbig.sublist (hfinsub.append_right _)
  · intro u hu hidlt
    rcases hmemA u.id (List.mem_map_of_mem KalmanBoxTracker.id hu) with h | h
    · obtain ⟨v, hv, hveq⟩ := List.mem_map.mp h
      exact ⟨v, hv, hveq⟩
    · omega

unseal Rat.add Rat.mul Rat.sub Rat.inv in
theorem C3_amended_global_ids_witness :
    (1 ≤ (SortState.update lapSolver SortState.init 1
      [Box.ofQ 0 0 2 2]).2.1) ∧
    ((SortState.update lapSolver SortState.init 1
      [Box.ofQ 0 0 2 2]).1.trackers.map KalmanBoxTracker.id = [1]) :=
  ⟨(C3_amended_global_ids lapSolver SortState.init SortState.init 1
      [Box.ofQ 0 0 2 2] (fun u hu => absurd hu (List.not_mem_nil u))
      List.nodup_nil).1,
    by decide⟩

/-
  C1 startup scenario: three non-overlapping detections repeated over three
  frames against a default tracker (`Sort()`: max_age=1, min_hits=3,
  iou_threshold=0.3).
-/

unseal Rat.add Rat.mul Rat.sub Rat.inv in
theorem scenario_frame1 :
    SortState.update lapSolver SortState.init 0 dets3 = (s1, 3, outRows3) := by
  decide

unseal Rat.add Rat.mul Rat.sub Rat.inv in
theorem scenario_frame2 :
    SortState.update lapSolver s1 3 dets3 = (s2w, 3, outRows3) := by
  have hps1 : (postSpawn lapSolver s1 3 dets3).1
      = [k1p.update sb1, k2p.update sb2, k3p.update sb3] := rfl
  have hps2 : (postSpawn lapSolver s1 3 dets3).2 = 3 := rfl
  have hk1 : k1p.update sb1 = k1w :=
    KalmanBoxTracker.update_of_innovation_zero k1p sb1 (by decide)
  have hk2 : k2p.update sb2 = k2w :=
    KalmanBoxTracker.update_of_innovation_zero k2p sb2 (by decide)
  have hk3 : k3p.update sb3 = k3w :=
    KalmanBoxTracker.update_of_innovation_zero k3p sb3 (by decide)
  have hout1 : (outLoop 1 3 2 [k1w, k2w, k3w]).1 = outRows3 := by decide
  have hout2 : (outLoop 1 3 2 [k1w, k2w, k3w]).2 = [k1w, k2w, k3w] := by
    rw [outLoop_eq]
    apply List.filter_eq_self.mpr
    intro a ha
    fin_cases ha
    · decide
    · decide
    · decide
  show (⟨1, 3, fin (3/10), (outLoop 1 3 2 (postSpawn lapSolver s1 3 dets3).1).2, 2⟩,
        (postSpawn lapSolver s1 3 dets3).2,
        (outLoop 1 3 2 (postSpawn lapSolver s1 3 dets3).1).1) = (s2w, 3, outRows3)
  rw [hps1, hps2, hk1, hk2, hk3, hout1, hout2]
  rfl

unseal Rat.add Rat.mul Rat.sub Rat.inv in
theorem scenario_frame3 :
    SortState.update lapSolver s2w 3 dets3 = (s3w, 3, outRows3) := by
  have hps1 : (postSpawn lapSolver s2w 3 dets3).1
      = [k1q.update sb1, k2q.update sb2, k3q.update sb3] := rfl
  have hps2 : (postSpawn lapSolver s2w 3 dets3).2 = 3 := rfl
  have hk1 : k1q.update sb1 = k1v :=
    KalmanBoxTracker.update_of_innovation_zero k1q sb1 (by decide)
  have hk2 : k2q.update sb2 = k2v :=
    KalmanBoxTracker.update_of_innovation_zero k2q sb2 (by decide)
  have hk3 : k3q.update sb3 = k3v :=
    KalmanBoxTracker.update_of_innovation_zero k3q sb3 (by decide)
  have hout1 : (outLoop 1 3 3 [k1v, k2v, k3v]).1 = outRows3 := by decide
  have hout2 : (outLoop 1 3 3 [k1v, k2v, k3v]).2 = [k1v, k2v, k3v] := by
    rw [outLoop_eq]
    apply List.filter_eq_self.mpr
    intro a ha
    fin_cases ha
    · decide
    · decide
    · decide
  show (⟨1, 3, fin (3/10), (outLoop 1 3 3 (postSpawn lapSolver s2w 3 dets3).1).2, 3⟩,
        (postSpawn lapSolver s2w 3 dets3).2,
        (outLoop 1 3 3 (postSpawn lapSolver s2w 3 dets3).1).1) = (s3w, 3, outRows3)
  rw [hps1, hps2, hk1, hk2, hk3, hout1, hout2]
  rfl

/-- C1: after every `tracker.update(detections)` call, the returned rows
are exactly the live tracks (post predict/pop/update/spawn) with
`time_since_update < 1` and (`hit_streak ≥ min_hits` or the tracker's
frame count `≤ min_hits`), each reported as its state box together with
the reported identity `trk.id + 1` (ids as reported start at 1); in
particular, for a default tracker (`min_hits = 3`) started empty, three
tracks spawned from three non-overlapping detections on frame 1 all
appear in the output rows on frames 1, 2 and 3
(Sort.update, ai_pipeline.py 149-178). -/
theorem C1_output_confirmation :
    (∀ (solver : Solver) (st : SortState) (count : ℕ) (dets : List Box)
      (row : OutRow),
      row ∈ (SortState.update solver st count dets).2.2 ↔
        ∃ t ∈ (postSpawn solver st count dets).1,
          (t.time_since_update < 1 ∧
            (st.min_hits ≤ t.hit_streak ∨ st.frame_count + 1 ≤ st.min_hits)) ∧
          row = ⟨t.get_state, t.id + 1⟩) ∧
    SortState.update lapSolver SortState.init 0 dets3 = (s1, 3, outRows3) ∧
    SortState.update lapSolver s1 3 dets3 = (s2w, 3, outRows3) ∧
    SortState.update lapSolver s2w 3 dets3 = (s3w, 3, outRows3) := by
  refine ⟨?_, scenario_frame1, scenario_frame2, scenario_frame3⟩
  intro solver st count dets row
  have hupd : (SortState.update solver st count dets).2.2
      = (((postSpawn solver st count dets).1.reverse.filter
          (outCond st.min_hits (st.frame_count + 1))).map reportRow) := by
    show (outLoop st.max_age st.min_hits (st.frame_count + 1)
      (postSpawn solver st count dets).1).1 = _
    rw [outLoop_eq]
  rw [hupd]
  constructor
  · intro h
    obtain ⟨t, ht, rfl⟩ := List.mem_map.mp h
    have ht2 := List.mem_filter.mp ht
    refine ⟨t, List.mem_reverse.mp ht2.1, ?_, rfl⟩
    have hc := ht2.2
    unfold outCond at hc
    simp only [Bool.and_eq_true, Bool.or_eq_true, decide_eq_true_eq] at hc
    exact hc
  · rintro ⟨t, ht, hcond, rfl⟩
    show reportRow t ∈ _
    apply List.mem_map_of_mem reportRow
    apply List.mem_filter.mpr
    refine ⟨List.mem_reverse.mpr ht, ?_⟩
    unfold outCond
    simp only [Bool.and_eq_true, Bool.or_eq_true, decide_eq_true_eq]
    exact hcond
